import Mathlib

set_option maxRecDepth 10000

/-!
Verification of the error-reporting and classification subsystem of the
Playwright-TS-Web-api repository: a shallow embedding of
`ErrorConstants.ts` (error taxonomy), `ErrorReportingUtils`
(`reportError`, `createError`, `handleError`, `getErrorStatistics`,
`getErrorsByCategory`, `generateAIMaintenanceReport`, `clearOldErrorLogs`,
`logErrorToFile`, `getCurrentPageInfo`) and the `BasePage` wrappers
(`navigate`, `isVisible`, `getText`), together with theorems about them.

JavaScript effects are made explicit: the filesystem state is a list of
log files threaded through each operation, exceptions are `Except`, and
the ambient browser/clock/filesystem behaviour is an `Env` record.
-/

/-- Model of a JavaScript runtime value as it can appear in the
`additionalDetails` payload.  `undefVal` is the JavaScript value
`undefined`, `nan` stands for any non-finite number (`NaN`,
`Infinity`, `-Infinity`, all of which `JSON.stringify` renders as
`null`), and `circular` stands for any value on which
`JSON.stringify` throws (a circular structure or a `BigInt`). -/
inductive JSValue where
  | null
  | undefVal
  | nan
  | bool (b : Bool)
  | num (n : Int)
  | str (s : String)
  | arr (elems : List JSValue)
  | obj (fields : List (String × JSValue))
  | circular

/-- JavaScript truthiness of a value (used by `x ? a : b` and `a || b`). -/
def truthy : JSValue → Bool
  | .null => false
  | .undefVal => false
  | .nan => false
  | .bool b => b
  | .num n => n != 0
  | .str s => s != ""
  | .arr _ => true
  | .obj _ => true
  | .circular => true

/-- Is the value literally `undefined`? -/
def isUndef : JSValue → Bool
  | .undefVal => true
  | _ => false

/-- Is the value literally `null`? -/
def isNull : JSValue → Bool
  | .null => true
  | _ => false

mutual

/-- `JSON.stringify` succeeds on the value (no circular reference /
`BigInt` anywhere inside it). -/
def serializable : JSValue → Bool
  | .circular => false
  | .arr elems => serializableList elems
  | .obj fields => serializableFields fields
  | _ => true

/-- `serializable` on every element of an array. -/
def serializableList : List JSValue → Bool
  | [] => true
  | v :: vs => serializable v && serializableList vs

/-- `serializable` on every property value of an object. -/
def serializableFields : List (String × JSValue) → Bool
  | [] => true
  | (_, v) :: kvs => serializable v && serializableFields kvs

end

mutual

/-- Semantics of `JSON.parse(JSON.stringify(v))` for a value in
root or array-element position: `undefined` and non-finite numbers
become `null`, object properties whose value is `undefined` are
dropped, everything else is preserved structurally.  (On a
`circular` value `JSON.stringify` throws instead; the `circular`
branch here is arbitrary and never relied upon.) -/
def rt : JSValue → JSValue
  | .null => .null
  | .undefVal => .null
  | .nan => .null
  | .bool b => .bool b
  | .num n => .num n
  | .str s => .str s
  | .arr elems => .arr (rtList elems)
  | .obj fields => .obj (rtFields fields)
  | .circular => .null

/-- `rt` on every element of an array. -/
def rtList : List JSValue → List JSValue
  | [] => []
  | v :: vs => rt v :: rtList vs

/-- `rt` on the property list of an object: properties whose value is
`undefined` are dropped by `JSON.stringify`. -/
def rtFields : List (String × JSValue) → List (String × JSValue)
  | [] => []
  | (k, v) :: kvs =>
    if isUndef v then rtFields kvs else (k, rt v) :: rtFields kvs

end

mutual

/-- The value is a pure JSON tree: no `undefined`, no non-finite
number, no circular part anywhere inside it. -/
def pureJson : JSValue → Bool
  | .undefVal => false
  | .nan => false
  | .circular => false
  | .arr elems => pureJsonList elems
  | .obj fields => pureJsonFields fields
  | _ => true

/-- `pureJson` on every element of an array. -/
def pureJsonList : List JSValue → Bool
  | [] => true
  | v :: vs => pureJson v && pureJsonList vs

/-- `pureJson` on every property value of an object. -/
def pureJsonFields : List (String × JSValue) → Bool
  | [] => true
  | (_, v) :: kvs => pureJson v && pureJsonFields kvs

end

/-- Property access with optional chaining, `v?.key`: `undefined` on
`null`/`undefined` and on every non-object; on an object the last
binding of the key wins (JavaScript object-literal semantics). -/
def getProp : JSValue → String → JSValue
  | .obj fields, key =>
    (((fields.reverse.find? (fun kv => kv.1 == key)).map Prod.snd).getD .undefVal)
  | _, _ => .undefVal

/-- JavaScript `a || b`. -/
def jsOr (a b : JSValue) : JSValue :=
  if truthy a then a else b

mutual

/-- JavaScript string coercion `String(v)` as performed by a template
literal. -/
def jsCoerceToString : JSValue → String
  | .null => "null"
  | .undefVal => "undefined"
  | .nan => "NaN"
  | .bool b => if b then "true" else "false"
  | .num n => toString n
  | .str s => s
  | .arr elems => jsCoerceElems elems
  | .obj _ => "[object Object]"
  | .circular => "[object Object]"

/-- `Array.prototype.toString`: elements joined with commas,
`null`/`undefined` elements rendered as the empty string. -/
def jsCoerceElems : List JSValue → String
  | [] => ""
  | v :: vs =>
    (if isNull v || isUndef v then "" else jsCoerceToString v) ++
      (if vs.isEmpty then "" else "," ++ jsCoerceElems vs)

end

/-- JSON escaping of one character inside a string literal. -/
def quoteJsonChar (c : Char) : String :=
  if c == '"' then "\\\""
  else if c == '\\' then "\\\\"
  else if c == '\n' then "\\n"
  else if c == '\r' then "\\r"
  else if c == '\t' then "\\t"
  else String.singleton c

/-- JSON string literal for `s` (quotes plus escaping). -/
def quoteJson (s : String) : String :=
  "\"" ++ String.join (s.data.map quoteJsonChar) ++ "\""

mutual

/-- The text produced by `JSON.stringify(v)` (compact form, defined for
serializable values; on `circular` the real function throws and the
value returned here is never used). -/
def stringifyStr : JSValue → String
  | .null => "null"
  | .undefVal => "null"
  | .nan => "null"
  | .bool b => if b then "true" else "false"
  | .num n => toString n
  | .str s => quoteJson s
  | .arr elems => "[" ++ String.intercalate "," (stringifyElemStrs elems) ++ "]"
  | .obj fields => "\x7b" ++ String.intercalate "," (stringifyFieldStrs fields) ++ "\x7d"
  | .circular => "null"

/-- Rendered elements of an array for `stringifyStr`. -/
def stringifyElemStrs : List JSValue → List String
  | [] => []
  | v :: vs => stringifyStr v :: stringifyElemStrs vs

/-- Rendered properties of an object for `stringifyStr`; properties
whose value is `undefined` are dropped. -/
def stringifyFieldStrs : List (String × JSValue) → List String
  | [] => []
  | (k, v) :: kvs =>
    if isUndef v then stringifyFieldStrs kvs
    else (quoteJson k ++ ":" ++ stringifyStr v) :: stringifyFieldStrs kvs

end

/-- Top-level `JSON.stringify`: `none` models the JavaScript result
`undefined` (top-level `undefined` input). -/
def jsonStringifyTop : JSValue → Option String
  | .undefVal => none
  | v => some (stringifyStr v)

/-- The `ErrorCategory` enumeration of `ErrorConstants.ts`, in
declaration order. -/
inductive ErrorCategory where
  | DATA
  | ELEMENT
  | NAVIGATION
  | ASSERTION
  | NETWORK
  | AUTH
  | PERFORMANCE
  | VISUAL
  | API
  | FRAMEWORK
  | UNKNOWN
  deriving DecidableEq, Repr

/-- The string value of each `ErrorCategory` member. -/
def categoryName : ErrorCategory → String
  | .DATA => "DATA"
  | .ELEMENT => "ELEMENT"
  | .NAVIGATION => "NAVIGATION"
  | .ASSERTION => "ASSERTION"
  | .NETWORK => "NETWORK"
  | .AUTH => "AUTH"
  | .PERFORMANCE => "PERFORMANCE"
  | .VISUAL => "VISUAL"
  | .API => "API"
  | .FRAMEWORK => "FRAMEWORK"
  | .UNKNOWN => "UNKNOWN"

/-- `Object.values(ErrorCategory)`: every category, in declaration
order (the iteration order of the statistics record). -/
def allCategories : List ErrorCategory :=
  [.DATA, .ELEMENT, .NAVIGATION, .ASSERTION, .NETWORK, .AUTH,
   .PERFORMANCE, .VISUAL, .API, .FRAMEWORK, .UNKNOWN]

/-- One entry of the `ErrorCode` catalog: numeric code, category,
default message, human title. -/
structure ErrorCodeEntry where
  code : Int
  category : ErrorCategory
  message : String
  title : String
  deriving DecidableEq, Repr

def ERROR_INVALID_DATA : ErrorCodeEntry :=
  ⟨1001, .DATA, "Invalid test data provided", "Invalid Data"⟩

def ERROR_MISSING_DATA : ErrorCodeEntry :=
  ⟨1002, .DATA, "Required test data is missing", "Missing Data"⟩

def ERROR_DATA_FORMAT : ErrorCodeEntry :=
  ⟨1003, .DATA, "Test data format is incorrect", "Data Format Error"⟩

def ERROR_ENV_DATA_NOT_FOUND : ErrorCodeEntry :=
  ⟨1004, .DATA, "Environment-specific data not found", "Environment Data Not Found"⟩

def ERROR_LOCATOR_NOT_FOUND : ErrorCodeEntry :=
  ⟨2001, .ELEMENT, "Element locator not found", "Element Not Found"⟩

def ERROR_ELEMENT_NOT_VISIBLE : ErrorCodeEntry :=
  ⟨2002, .ELEMENT, "Element is not visible", "Element Not Visible"⟩

def ERROR_ELEMENT_NOT_CLICKABLE : ErrorCodeEntry :=
  ⟨2003, .ELEMENT, "Element is not clickable", "Element Not Clickable"⟩

def ERROR_ELEMENT_WRONG_STATE : ErrorCodeEntry :=
  ⟨2004, .ELEMENT, "Element is in wrong state", "Element Wrong State"⟩

def ERROR_ELEMENT_TIMEOUT : ErrorCodeEntry :=
  ⟨2007, .ELEMENT, "Element interaction timed out", "Element Timeout"⟩

def ERROR_ELEMENT_ATTRIBUTE_MISSING : ErrorCodeEntry :=
  ⟨2005, .ELEMENT, "Element attribute is missing", "Missing Element Attribute"⟩

def ERROR_STALE_ELEMENT : ErrorCodeEntry :=
  ⟨2006, .ELEMENT, "Element is stale or no longer attached to DOM", "Stale Element"⟩

def ERROR_PAGE_NOT_LOADED : ErrorCodeEntry :=
  ⟨3001, .NAVIGATION, "Page failed to load", "Page Load Failed"⟩

def ERROR_NAVIGATION_FAILED : ErrorCodeEntry :=
  ⟨3002, .NAVIGATION, "Navigation to page failed", "Navigation Failed"⟩

def ERROR_REDIRECT_UNEXPECTED : ErrorCodeEntry :=
  ⟨3003, .NAVIGATION, "Unexpected redirect occurred", "Unexpected Redirect"⟩

def ERROR_URL_MISMATCH : ErrorCodeEntry :=
  ⟨3004, .NAVIGATION, "Current URL does not match expected URL", "URL Mismatch"⟩

def ERROR_ASSERTION_TEXT : ErrorCodeEntry :=
  ⟨4001, .ASSERTION, "Text assertion failed", "Text Assertion Failed"⟩

def ERROR_ASSERTION_VISIBILITY : ErrorCodeEntry :=
  ⟨4002, .ASSERTION, "Visibility assertion failed", "Visibility Assertion Failed"⟩

def ERROR_ASSERTION_COUNT : ErrorCodeEntry :=
  ⟨4003, .ASSERTION, "Count assertion failed", "Count Assertion Failed"⟩

def ERROR_ASSERTION_STATE : ErrorCodeEntry :=
  ⟨4004, .ASSERTION, "State assertion failed", "State Assertion Failed"⟩

def ERROR_ASSERTION_PROPERTY : ErrorCodeEntry :=
  ⟨4005, .ASSERTION, "Property assertion failed", "Property Assertion Failed"⟩

def ERROR_NETWORK_REQUEST_FAILED : ErrorCodeEntry :=
  ⟨5001, .NETWORK, "Network request failed", "Network Request Failed"⟩

def ERROR_NETWORK_TIMEOUT : ErrorCodeEntry :=
  ⟨5002, .NETWORK, "Network request timed out", "Network Timeout"⟩

def ERROR_STATUS_CODE_UNEXPECTED : ErrorCodeEntry :=
  ⟨5003, .NETWORK, "Unexpected HTTP status code", "Unexpected Status Code"⟩

def ERROR_AUTH_FAILED : ErrorCodeEntry :=
  ⟨6001, .AUTH, "Authentication failed", "Authentication Failed"⟩

def ERROR_SESSION_EXPIRED : ErrorCodeEntry :=
  ⟨6002, .AUTH, "Session expired", "Session Expired"⟩

def ERROR_UNAUTHORIZED : ErrorCodeEntry :=
  ⟨6003, .AUTH, "Unauthorized access", "Unauthorized Access"⟩

def ERROR_PERFORMANCE_TIMEOUT : ErrorCodeEntry :=
  ⟨7001, .PERFORMANCE, "Operation timed out due to performance issues", "Performance Timeout"⟩

def ERROR_PERFORMANCE_THRESHOLD : ErrorCodeEntry :=
  ⟨7002, .PERFORMANCE, "Performance threshold exceeded", "Performance Threshold Exceeded"⟩

def ERROR_VISUAL_MISMATCH : ErrorCodeEntry :=
  ⟨8001, .VISUAL, "Visual comparison failed", "Visual Comparison Failed"⟩

def ERROR_VISUAL_BASELINE_MISSING : ErrorCodeEntry :=
  ⟨8002, .VISUAL, "Visual baseline image missing", "Missing Visual Baseline"⟩

def ERROR_API_RESPONSE_INVALID : ErrorCodeEntry :=
  ⟨9001, .API, "Invalid API response", "Invalid API Response"⟩

def ERROR_API_SCHEMA_VALIDATION : ErrorCodeEntry :=
  ⟨9002, .API, "API schema validation failed", "API Schema Validation Failed"⟩

def ERROR_CONFIG_INVALID : ErrorCodeEntry :=
  ⟨10001, .FRAMEWORK, "Invalid framework configuration", "Invalid Configuration"⟩

def ERROR_DEPENDENCY_MISSING : ErrorCodeEntry :=
  ⟨10002, .FRAMEWORK, "Required dependency is missing", "Missing Dependency"⟩

def ERROR_UNKNOWN : ErrorCodeEntry :=
  ⟨99999, .UNKNOWN, "Unknown error occurred", "Unknown Error"⟩

/-- The full `ErrorCode` catalog of `ErrorConstants.ts`, in source
declaration order. -/
def errorCodeCatalog : List ErrorCodeEntry :=
  [ERROR_INVALID_DATA, ERROR_MISSING_DATA, ERROR_DATA_FORMAT,
   ERROR_ENV_DATA_NOT_FOUND, ERROR_LOCATOR_NOT_FOUND,
   ERROR_ELEMENT_NOT_VISIBLE, ERROR_ELEMENT_NOT_CLICKABLE,
   ERROR_ELEMENT_WRONG_STATE, ERROR_ELEMENT_TIMEOUT,
   ERROR_ELEMENT_ATTRIBUTE_MISSING, ERROR_STALE_ELEMENT,
   ERROR_PAGE_NOT_LOADED, ERROR_NAVIGATION_FAILED,
   ERROR_REDIRECT_UNEXPECTED, ERROR_URL_MISMATCH,
   ERROR_ASSERTION_TEXT, ERROR_ASSERTION_VISIBILITY,
   ERROR_ASSERTION_COUNT, ERROR_ASSERTION_STATE,
   ERROR_ASSERTION_PROPERTY, ERROR_NETWORK_REQUEST_FAILED,
   ERROR_NETWORK_TIMEOUT, ERROR_STATUS_CODE_UNEXPECTED,
   ERROR_AUTH_FAILED, ERROR_SESSION_EXPIRED, ERROR_UNAUTHORIZED,
   ERROR_PERFORMANCE_TIMEOUT, ERROR_PERFORMANCE_THRESHOLD,
   ERROR_VISUAL_MISMATCH, ERROR_VISUAL_BASELINE_MISSING,
   ERROR_API_RESPONSE_INVALID, ERROR_API_SCHEMA_VALIDATION,
   ERROR_CONFIG_INVALID, ERROR_DEPENDENCY_MISSING, ERROR_UNKNOWN]


/-- The `ErrorDetails` record assembled by `reportError`
(`ErrorConstants.ts` interface of the same name).  `details` is the
free-form payload (`JSValue.undefVal` when the optional argument was
omitted); `screenshot` is `none` when no screenshot was captured;
`location` and `timestamp` are always set by `reportError`. -/
structure ErrorDetails where
  code : Int
  category : ErrorCategory
  message : String
  title : String
  details : JSValue
  location : String
  screenshot : Option String
  timestamp : String

/-- The JavaScript object literal built by `reportError` (and then
serialized by `logErrorToFile`), with its keys in source order. -/
def recordJS (r : ErrorDetails) : JSValue :=
  .obj [("code", .num r.code),
        ("category", .str (categoryName r.category)),
        ("message", .str r.message),
        ("title", .str r.title),
        ("details", r.details),
        ("location", .str r.location),
        ("screenshot", match r.screenshot with
                       | some s => .str s
                       | none => .undefVal),
        ("timestamp", .str r.timestamp)]

/-- One file of the `error-logs` directory. `parsed` is `some r` when
reading the file and `JSON.parse`-ing its content yields the record
`r`, and `none` when the file is unreadable or malformed (both make
the read/parse step throw). `statFails` / `unlinkFails` model
`fs.statSync` / `fs.unlinkSync` throwing on this file. -/
structure LogFile where
  name : String
  parsed : Option ErrorDetails
  mtimeMs : Int
  statFails : Bool
  unlinkFails : Bool

/-- `file.endsWith(suffix)` on the character data of the strings
(the `.json` filter applied to directory listings). -/
def strEndsWith (s pat : String) : Bool :=
  s.data.drop (s.data.length - pat.data.length) == pat.data

/-- The ambient behaviour of the browser page, clock and filesystem
during one operation: which collaborator calls succeed and with what
results.  `pageUrl = none` models `page.url()` throwing (for example
because the page object is absent or closed), `pageTitle = none`
models `page.title()` rejecting, `screenshotOk = false` models
`page.screenshot` rejecting, `logWritable = false` models
`fs.writeFileSync` throwing in the log directory. -/
structure Env where
  pageAvailable : Bool
  pageUrl : Option String
  pageTitle : Option String
  screenshotOk : Bool
  logWritable : Bool
  nowMs : Int
  nowISO : String
  baseUrl : String
  urlCtorErr : Option String
  gotoErr : Option String
  isVisibleRes : Except String Bool
  innerTextRes : Except String String

/-- An exception surfaced to the caller: either a raw JavaScript error
(its message) or the synthetic error built by `createError`, which
carries `code`, `category` and `title` as inspectable properties. -/
inductive Thrown where
  | raw (message : String)
  | classified (message : String) (code : Int) (category : ErrorCategory) (title : String)

/-- `getCurrentPageInfo`: URL and title of the current page; a title
rejection is replaced by `"Unknown"`, a `page.url()` throw by the
fixed placeholder string. -/
def getCurrentPageInfo (env : Env) : String :=
  match env.pageUrl with
  | none => "Unable to get page info"
  | some url => "URL: " ++ url ++ ", Title: " ++ env.pageTitle.getD "Unknown"

/-- `timestamp.replace(/[:.]/g, '-')` used in the default screenshot
file name. -/
def sanitizeTimestamp (s : String) : String :=
  s.map (fun c => if c == ':' || c == '.' then '-' else c)

/-- The default screenshot file name
`category_code_timestamp.png` of `reportError`. -/
def defaultScreenshotName (entry : ErrorCodeEntry) (timestamp : String) : String :=
  categoryName entry.category ++ "_" ++ toString entry.code ++ "_" ++
    sanitizeTimestamp timestamp ++ ".png"

/-- The `ErrorDetails` object literal assembled by `reportError`:
fields copied from the catalog entry, the caller's details payload,
the page location snapshot, the relative screenshot path (absent when
the page is absent or `page.screenshot` failed) and the ISO
timestamp. -/
def buildErrorDetails (env : Env) (entry : ErrorCodeEntry) (additionalDetails : JSValue)
    (screenshotName : Option String) : ErrorDetails :=
  let timestamp := env.nowISO
  let screenshotFileName := screenshotName.getD (defaultScreenshotName entry timestamp)
  { code := entry.code
    category := entry.category
    message := entry.message
    title := entry.title
    details := additionalDetails
    location := getCurrentPageInfo env
    screenshot :=
      if env.pageAvailable && env.screenshotOk then
        some ("error-screenshots/" ++ screenshotFileName)
      else none
    timestamp := timestamp }

/-- The log file written by `logErrorToFile` for a record: file name
`error_<code>_<Date.now()>.json`, content the serialized record. -/
def mkLogRecord (env : Env) (errorDetails : ErrorDetails) : LogFile :=
  { name := "error_" ++ toString errorDetails.code ++ "_" ++ toString env.nowMs ++ ".json"
    parsed := some errorDetails
    mtimeMs := env.nowMs
    statFails := false
    unlinkFails := false }

/-- `logErrorToFile`: appends one JSON file per record to the log
directory; a write failure is caught and logged, leaving the
directory unchanged. -/
def logErrorToFile (env : Env) (st : List LogFile) (errorDetails : ErrorDetails) :
    List LogFile :=
  if env.logWritable then st ++ [mkLogRecord env errorDetails] else st

/-- `reportError`: computes timestamp and location, attempts the
screenshot (best-effort), assembles the `ErrorDetails` record, prints
the console summary — whose `JSON.stringify(additionalDetails)` call
is NOT protected by any try/catch and therefore throws on a truthy
non-serializable payload — then persists the record via
`logErrorToFile` and returns it.  The returned pair is (outcome,
resulting log directory). -/
def reportError (env : Env) (st : List LogFile) (entry : ErrorCodeEntry)
    (additionalDetails : JSValue) (screenshotName : Option String) :
    Except String ErrorDetails × List LogFile :=
  let errorDetails := buildErrorDetails env entry additionalDetails screenshotName
  if truthy additionalDetails && !serializable additionalDetails then
    (Except.error "TypeError: Converting circular structure to JSON", st)
  else
    (Except.ok errorDetails, logErrorToFile env st errorDetails)

/-- `createError`: the synthetic error with message
`[ERROR <code>] <title>: <message>` (plus `: <additionalMessage>` when
that argument is truthy) carrying `code`, `category` and `title` as
properties. -/
def createError (entry : ErrorCodeEntry) (additionalMessage : JSValue) : Thrown :=
  let base := "[ERROR " ++ toString entry.code ++ "] " ++ entry.title ++ ": " ++ entry.message
  Thrown.classified
    (if truthy additionalMessage
     then base ++ ": " ++ jsCoerceToString additionalMessage
     else base)
    entry.code entry.category entry.title

/-- The expression `additionalDetails?.message ||
JSON.stringify(additionalDetails)` of `handleError`. -/
def derivedMessage (additionalDetails : JSValue) : JSValue :=
  jsOr (getProp additionalDetails "message")
    (match jsonStringifyTop additionalDetails with
     | none => JSValue.undefVal
     | some s => JSValue.str s)

/-- `handleError`: reports first (so a raw throw escaping
`reportError` propagates unchanged), then, if `throwErrorFlag`, throws
the synthetic error of `createError`; otherwise returns the record. -/
def handleError (env : Env) (st : List LogFile) (entry : ErrorCodeEntry)
    (additionalDetails : JSValue) (throwErrorFlag : Bool) :
    Except Thrown ErrorDetails × List LogFile :=
  match reportError env st entry additionalDetails none with
  | (Except.error m, st1) => (Except.error (Thrown.raw m), st1)
  | (Except.ok errorDetails, st1) =>
    if throwErrorFlag then
      (Except.error (createError entry (derivedMessage additionalDetails)), st1)
    else
      (Except.ok errorDetails, st1)

/-- The `.json` filter applied by every scanning method to the
directory listing of the error-log directory. -/
def jsonLogFiles (files : List LogFile) : List LogFile :=
  files.filter (fun f => strEndsWith f.name ".json")

/-- `stats[category]++` on the statistics record. -/
def bumpCategory (stats : ErrorCategory → Nat) (c : ErrorCategory) :
    ErrorCategory → Nat :=
  fun c2 => if c2 = c then stats c2 + 1 else stats c2

/-- The `for` loop of `getErrorStatistics`.  The surrounding
`try/catch` wraps the WHOLE loop, so the first unreadable or
malformed file ends the scan: the statistics accumulated so far are
returned and the remaining files are never examined. -/
def statsLoop (stats : ErrorCategory → Nat) : List LogFile → (ErrorCategory → Nat)
  | [] => stats
  | f :: rest =>
    match f.parsed with
    | none => stats
    | some r => statsLoop (bumpCategory stats r.category) rest

/-- `getErrorStatistics`: every category initialized to zero, then one
increment per record read from the `.json` files of the log
directory (scan aborted by the first malformed file, see
`statsLoop`). -/
def getErrorStatistics (files : List LogFile) : ErrorCategory → Nat :=
  statsLoop (fun _ => 0) (jsonLogFiles files)

/-- The `for` loop of `getErrorsByCategory`; like `statsLoop`, the
first malformed file ends the scan and returns what was collected. -/
def errorsLoop (acc : List ErrorDetails) (category : ErrorCategory) :
    List LogFile → List ErrorDetails
  | [] => acc
  | f :: rest =>
    match f.parsed with
    | none => acc
    | some r =>
      errorsLoop (if r.category = category then acc ++ [r] else acc) category rest

/-- `getErrorsByCategory`: the records of the given category among the
`.json` files of the log directory, in directory order. -/
def getErrorsByCategory (files : List LogFile) (category : ErrorCategory) :
    List ErrorDetails :=
  errorsLoop [] category (jsonLogFiles files)

/-- `Object.entries(stats)`: the statistics record flattened to
key/value pairs in insertion order (which is the `ErrorCategory`
declaration order, because the record is initialized that way). -/
def statsEntries (stats : ErrorCategory → Nat) : List (ErrorCategory × Nat) :=
  allCategories.map (fun c => (c, stats c))

/-- The object returned by `generateAIMaintenanceReport`. -/
structure MaintenanceReport where
  statisticsEntries : List (ErrorCategory × Nat)
  mostFrequentCategory : ErrorCategory
  topErrors : List ErrorDetails
  totalErrors : Nat
  generatedAt : String

/-- `generateAIMaintenanceReport`: computes the statistics, sorts the
entries by descending count (`.sort(([, a], [, b]) => b - a)`), takes
the first entry's key as the most frequent category, fetches that
category's records and keeps the first 10, and sums all counts for
the total. -/
def generateAIMaintenanceReport (env : Env) (files : List LogFile) :
    MaintenanceReport :=
  let stats := getErrorStatistics files
  let sortedEntries := (statsEntries stats).mergeSort (fun a b => decide (b.2 ≤ a.2))
  let mostFrequentCategory := (sortedEntries.headD (ErrorCategory.UNKNOWN, 0)).1
  { statisticsEntries := statsEntries stats
    mostFrequentCategory := mostFrequentCategory
    topErrors := (getErrorsByCategory files mostFrequentCategory).take 10
    totalErrors := ((statsEntries stats).map Prod.snd).sum
    generatedAt := env.nowISO }

/-- `Date.now() - olderThanDays * 24 * 60 * 60 * 1000`, the cutoff of
`clearOldErrorLogs`. -/
def cutoffOf (nowMs olderThanDays : Int) : Int :=
  nowMs - olderThanDays * 24 * 60 * 60 * 1000

/-- The `for` loop of `clearOldErrorLogs` over the directory: every
`.json` file is `statSync`-ed and, when its modification time is
strictly older than the cutoff, `unlinkSync`-ed.  The surrounding
`try/catch` wraps the WHOLE loop, so the first `statSync` or
`unlinkSync` throw ends the batch: that file and all later files stay
untouched.  Non-`.json` files are never examined. -/
def clearLoop (cutoffTime : Int) : List LogFile → List LogFile
  | [] => []
  | f :: rest =>
    if strEndsWith f.name ".json" then
      if f.statFails then f :: rest
      else if f.mtimeMs < cutoffTime then
        if f.unlinkFails then f :: rest
        else clearLoop cutoffTime rest
      else f :: clearLoop cutoffTime rest
    else f :: clearLoop cutoffTime rest

/-- `clearOldErrorLogs(olderThanDays)` acting on the log directory at
time `nowMs`.  The `catch` swallows any exception, so the call itself
always returns normally; the directory it leaves behind is the value
computed here. -/
def clearOldErrorLogs (nowMs olderThanDays : Int) (files : List LogFile) :
    List LogFile :=
  clearLoop (cutoffOf nowMs olderThanDays) files

/-- The details payload of `BasePage.isVisible`'s catch block. -/
def isVisibleDetails (selector errMsg : String) : JSValue :=
  .obj [("selector", .str selector), ("error", .str errMsg),
        ("action", .str "isVisible")]

/-- `BasePage.isVisible`: on a locator failure, reports
`ERROR_LOCATOR_NOT_FOUND` (with a custom screenshot name) and returns
`false` instead of propagating the failure. -/
def isVisible (env : Env) (st : List LogFile) (selector : String) :
    Except Thrown Bool × List LogFile :=
  match env.isVisibleRes with
  | Except.ok b => (Except.ok b, st)
  | Except.error errMsg =>
    match reportError env st ERROR_LOCATOR_NOT_FOUND
        (isVisibleDetails selector errMsg)
        (some ("element-not-found-" ++ toString env.nowMs ++ ".png")) with
    | (Except.error m, st1) => (Except.error (Thrown.raw m), st1)
    | (Except.ok _, st1) => (Except.ok false, st1)

/-- The details payload of `BasePage.getText`'s catch block. -/
def getTextDetails (selector errMsg : String) : JSValue :=
  .obj [("selector", .str selector), ("error", .str errMsg),
        ("action", .str "getText")]

/-- `BasePage.getText`: on an `innerText` failure, reports
`ERROR_LOCATOR_NOT_FOUND` and returns the empty string instead of
propagating the failure. -/
def getText (env : Env) (st : List LogFile) (selector : String) :
    Except Thrown String × List LogFile :=
  match env.innerTextRes with
  | Except.ok s => (Except.ok s, st)
  | Except.error errMsg =>
    match reportError env st ERROR_LOCATOR_NOT_FOUND
        (getTextDetails selector errMsg) none with
    | (Except.error m, st1) => (Except.error (Thrown.raw m), st1)
    | (Except.ok _, st1) => (Except.ok "", st1)

/-- The details payload of `BasePage.navigate`'s catch block. -/
def navigateDetails (navPath baseUrl errMsg : String) : JSValue :=
  .obj [("path", .str navPath), ("baseUrl", .str baseUrl),
        ("error", .str errMsg)]

/-- The catch block of `BasePage.navigate`: delegates the failure to
`handleError` with `ERROR_NAVIGATION_FAILED` (default
`throwError = true`), so the synthetic classified error propagates. -/
def navigateCatch (env : Env) (st : List LogFile) (navPath errMsg : String) :
    Except Thrown Unit × List LogFile :=
  match handleError env st ERROR_NAVIGATION_FAILED
      (navigateDetails navPath env.baseUrl errMsg) true with
  | (Except.error t, st1) => (Except.error t, st1)
  | (Except.ok _, st1) => (Except.ok (), st1)

/-- `BasePage.navigate`: builds the URL (`new URL(path, baseUrl)` may
throw on an unparsable path, before any browser call) and calls
`page.goto`; any failure of either step lands in the catch block. -/
def navigate (env : Env) (st : List LogFile) (navPath : String) :
    Except Thrown Unit × List LogFile :=
  match env.urlCtorErr with
  | some m => navigateCatch env st navPath m
  | none =>
    match env.gotoErr with
    | some m => navigateCatch env st navPath m
    | none => (Except.ok (), st)

/-- The valid prefix of a directory scan: the records parsed before
the first unreadable/malformed file (which aborts the loop of
`statsLoop` / `errorsLoop`). -/
def validRun : List LogFile → List ErrorDetails
  | [] => []
  | f :: rest =>
    match f.parsed with
    | none => []
    | some r => r :: validRun rest

/-- The top-level property names of an object value (observation used
to separate two unequal objects). -/
def objKeys : JSValue → List String
  | .obj fields => fields.map Prod.fst
  | _ => []

/-- `sub` occurs as a contiguous substring of `s`. -/
def substrOf (sub s : String) : Prop :=
  sub.data <:+: s.data

/-- A benign environment: page open, screenshot capture and log
directory writes succeeding, a fixed clock. -/
def sampleEnv : Env where
  pageAvailable := true
  pageUrl := some "https://www.saucedemo.com/inventory.html"
  pageTitle := some "Swag Labs"
  screenshotOk := true
  logWritable := true
  nowMs := 1700000000000
  nowISO := "2023-11-14T22:13:20.000Z"
  baseUrl := "https://www.saucedemo.com"
  urlCtorErr := none
  gotoErr := none
  isVisibleRes := Except.ok true
  innerTextRes := Except.ok "sample"

/-- A serializable sample details payload. -/
def sampleDetailsC1 : JSValue :=
  JSValue.obj [("selector", JSValue.str "#login-button"),
               ("timeoutMs", JSValue.num 5000)]

/-- Details payload whose nested number is `NaN` (accepted by
`reportError`, but not persisted faithfully). -/
def dC5A : JSValue :=
  JSValue.obj [("url", JSValue.str "https://x"), ("timeoutMs", JSValue.nan)]

/-- The record `reportError` returns for `dC5A` under `sampleEnv`. -/
def edC5A : ErrorDetails :=
  buildErrorDetails sampleEnv ERROR_NETWORK_TIMEOUT dC5A none

/-- Environment in which `page.screenshot` rejects. -/
def envC5B : Env :=
  { sampleEnv with screenshotOk := false }

/-- A pure-JSON details payload. -/
def dC5B : JSValue :=
  JSValue.obj [("url", JSValue.str "https://x")]

/-- The record `reportError` returns for `dC5B` under `envC5B` (no
screenshot captured). -/
def edC5B : ErrorDetails :=
  buildErrorDetails envC5B ERROR_ELEMENT_NOT_VISIBLE dC5B none

/-- A record with pure-JSON details and a captured screenshot. -/
def rC5W : ErrorDetails :=
  buildErrorDetails sampleEnv ERROR_NETWORK_TIMEOUT
    (JSValue.obj [("url", JSValue.str "https://x"),
                  ("timeoutMs", JSValue.num 5000)]) none

/-- A details payload with a truthy `message` property. -/
def dC3 : JSValue :=
  JSValue.obj [("message", JSValue.str "bad credentials")]

/-- A details payload without a `message` property. -/
def dC3cx : JSValue :=
  JSValue.obj [("selector", JSValue.str "#x")]

/-- A sample valid persisted record of the given code and category. -/
def mkSampleRecord (code : Int) (c : ErrorCategory) : ErrorDetails where
  code := code
  category := c
  message := "m"
  title := "t"
  details := JSValue.null
  location := "URL: https://www.saucedemo.com/, Title: Swag Labs"
  screenshot := none
  timestamp := "2023-11-14T22:13:20.000Z"

/-- A healthy log file containing the given record. -/
def mkScenFile (nm : String) (code : Int) (c : ErrorCategory) : LogFile where
  name := nm
  parsed := some (mkSampleRecord code c)
  mtimeMs := 1700000000000
  statFails := false
  unlinkFails := false

/-- A log directory whose first `.json` file is malformed and whose
second holds a valid ELEMENT record. -/
def badThenGoodFiles : List LogFile :=
  [{ name := "error_2001_corrupt.json", parsed := none, mtimeMs := 0,
     statFails := false, unlinkFails := false },
   mkScenFile "error_2001_ok.json" 2001 .ELEMENT]

/-- Seven valid records across three categories: 4 ELEMENT,
2 NAVIGATION, 1 AUTH. -/
def scenFiles : List LogFile :=
  [mkScenFile "e1.json" 2001 .ELEMENT,
   mkScenFile "e2.json" 2001 .ELEMENT,
   mkScenFile "e3.json" 2002 .ELEMENT,
   mkScenFile "e4.json" 2003 .ELEMENT,
   mkScenFile "n1.json" 3001 .NAVIGATION,
   mkScenFile "n2.json" 3002 .NAVIGATION,
   mkScenFile "a1.json" 6001 .AUTH]

/-- A healthy record file with the given name and modification time. -/
def mkAgedFile (nm : String) (mt : Int) : LogFile where
  name := nm
  parsed := none
  mtimeMs := mt
  statFails := false
  unlinkFails := false

/-- Files around the 30-day cutoff of `nowMs = 1700000000000`
(cutoff `1697408000000`): one strictly older, one exactly at the
cutoff, one newer, and one non-`.json` file. -/
def pruneWitnessFiles : List LogFile :=
  [mkAgedFile "ancient.json" 1697407999999,
   mkAgedFile "boundary.json" 1697408000000,
   mkAgedFile "fresh.json" 1700000000000,
   mkAgedFile "notes.txt" 0]

/-- Two old `.json` files; deleting the first fails. -/
def failingBatchFiles : List LogFile :=
  [{ name := "a.json", parsed := none, mtimeMs := 0,
     statFails := false, unlinkFails := true },
   { name := "b.json", parsed := none, mtimeMs := 0,
     statFails := false, unlinkFails := false }]

/-- A clean old file examined before the failing one. -/
def c7pre : List LogFile :=
  [mkAgedFile "p.json" 0]

/-- A file whose `statSync` throws. -/
def c7fail : LogFile :=
  { name := "x.json", parsed := none, mtimeMs := 0,
    statFails := true, unlinkFails := false }

/-- A clean old file listed after the failing one. -/
def c7post : List LogFile :=
  [mkAgedFile "q.json" 0]

/-- Environment in which both locator operations fail. -/
def envC8 : Env :=
  { sampleEnv with
    isVisibleRes := Except.error "Timeout 30000ms exceeded",
    innerTextRes := Except.error "Timeout 30000ms exceeded" }

/-- Environment in which `new URL(path, baseUrl)` throws. -/
def envNav : Env :=
  { sampleEnv with urlCtorErr := some "Invalid URL" }

/-- The message of the synthetic error thrown by
`handleError(ERROR_LOCATOR_NOT_FOUND, dC3cx, true)`. -/
def mC3cx : String :=
  "[ERROR 2001] Element Not Found: Element locator not found: \x7b\"selector\":\"#x\"\x7d"

theorem mem_allCategories (c : ErrorCategory) : c ∈ allCategories := by
  cases c <;> simp [allCategories]

theorem isUndef_eq_false_of_pureJson {v : JSValue} (h : pureJson v = true) :
    isUndef v = false := by
  cases v <;> simp_all [pureJson, isUndef]

mutual

theorem rt_of_pureJson : ∀ v : JSValue, pureJson v = true → rt v = v
  | .null, _ => rfl
  | .bool _, _ => rfl
  | .num _, _ => rfl
  | .str _, _ => rfl
  | .arr elems, h => by
    have h2 : pureJsonList elems = true := by simpa [pureJson] using h
    simp [rt, rtList_of_pureJson elems h2]
  | .obj fields, h => by
    have h2 : pureJsonFields fields = true := by simpa [pureJson] using h
    simp [rt, rtFields_of_pureJson fields h2]

theorem rtList_of_pureJson : ∀ vs : List JSValue, pureJsonList vs = true → rtList vs = vs
  | [], _ => rfl
  | v :: vs, h => by
    simp only [pureJsonList, Bool.and_eq_true] at h
    simp [rtList, rt_of_pureJson v h.1, rtList_of_pureJson vs h.2]

theorem rtFields_of_pureJson :
    ∀ kvs : List (String × JSValue), pureJsonFields kvs = true → rtFields kvs = kvs
  | [], _ => rfl
  | (k, v) :: kvs, h => by
    simp only [pureJsonFields, Bool.and_eq_true] at h
    simp [rtFields, isUndef_eq_false_of_pureJson h.1,
      rt_of_pureJson v h.1, rtFields_of_pureJson kvs h.2]

end

/-- Claim C9: in the `ErrorCode` catalog, codes are globally unique —
for every two distinct entries of the catalog, their numeric `code`
fields differ. -/
theorem C9_codes_unique :
    errorCodeCatalog.Pairwise (fun a b => a.code ≠ b.code) := by
  decide

/-- Claim C1 counterexample: on a circular details payload,
`reportError` does NOT complete — the unprotected
`JSON.stringify(additionalDetails)` of the console summary throws, the
call rejects with the raw `TypeError`, and no record is persisted —
even in a fully healthy environment. -/
theorem C1_counterexample :
    reportError sampleEnv [] ERROR_UNKNOWN JSValue.circular none =
      (Except.error "TypeError: Converting circular structure to JSON", []) := by
  rfl

/-- Claim C1 (amended): `reportError` never throws and returns the
assembled `ErrorDetails` record for every environment — page present
or absent, page closed, screenshot failing, log directory unwritable —
provided the details payload is serializable (in particular whenever
it is absent); a truthy non-serializable payload instead makes the
unprotected console-summary `JSON.stringify` throw. -/
theorem C1_reportError_never_throws (env : Env) (st : List LogFile)
    (entry : ErrorCodeEntry) (d : JSValue) (scrName : Option String)
    (h : serializable d = true) :
    reportError env st entry d scrName =
      (Except.ok (buildErrorDetails env entry d scrName),
       logErrorToFile env st (buildErrorDetails env entry d scrName)) ∧
    (buildErrorDetails env entry d scrName).code = entry.code ∧
    (buildErrorDetails env entry d scrName).category = entry.category ∧
    (buildErrorDetails env entry d scrName).details = d := by
  refine ⟨?_, rfl, rfl, rfl⟩
  simp [reportError, h]

theorem C1_witness :
    serializable sampleDetailsC1 = true ∧
    reportError sampleEnv [] ERROR_ELEMENT_NOT_VISIBLE sampleDetailsC1 none =
      (Except.ok (buildErrorDetails sampleEnv ERROR_ELEMENT_NOT_VISIBLE sampleDetailsC1 none),
       logErrorToFile sampleEnv []
         (buildErrorDetails sampleEnv ERROR_ELEMENT_NOT_VISIBLE sampleDetailsC1 none)) :=
  ⟨by decide,
   (C1_reportError_never_throws sampleEnv [] ERROR_ELEMENT_NOT_VISIBLE
     sampleDetailsC1 none (by decide)).1⟩

/-- Claim C5 counterexample: the persisted JSON is NOT always
deep-equal to the record returned by `reportError`.  Two accepted
payload/environment combinations break it at concrete inputs: a
details payload containing `NaN` is persisted with `null` in its
place, and a record whose screenshot capture failed is persisted
without its `screenshot` key (the in-memory record carries the key
with value `undefined`). -/
theorem C5_counterexample :
    (reportError sampleEnv [] ERROR_NETWORK_TIMEOUT dC5A none).1 = Except.ok edC5A ∧
    rt (recordJS edC5A) ≠ recordJS edC5A ∧
    (reportError envC5B [] ERROR_ELEMENT_NOT_VISIBLE dC5B none).1 = Except.ok edC5B ∧
    rt (recordJS edC5B) ≠ recordJS edC5B := by
  refine ⟨rfl, ?_, rfl, ?_⟩
  · intro h
    have h2 : JSValue.null = JSValue.nan :=
      congrArg (fun v => getProp (getProp v "details") "timeoutMs") h
    exact JSValue.noConfusion h2
  · intro h
    have h2 : objKeys (rt (recordJS edC5B)) = objKeys (recordJS edC5B) :=
      congrArg objKeys h
    have h3 : ¬ (objKeys (rt (recordJS edC5B)) = objKeys (recordJS edC5B)) := by
      decide
    exact h3 h2

/-- Claim C5 (amended): reading a persisted record back yields
`rt (recordJS r)` — the record with `undefined`-valued properties
dropped and non-JSON number values normalized to `null`; this is
deep-equal to the record returned by `reportError` whenever the
details payload is a pure JSON tree and a screenshot was captured. -/
theorem C5_roundTrip_amended (r : ErrorDetails)
    (h1 : pureJson r.details = true) (h2 : r.screenshot.isSome = true) :
    rt (recordJS r) = recordJS r := by
  obtain ⟨s, hs⟩ := Option.isSome_iff_exists.mp h2
  have hu : isUndef r.details = false := isUndef_eq_false_of_pureJson h1
  simp [recordJS, rt, rtFields, isUndef, hs, rt_of_pureJson r.details h1]
  simpa [isUndef] using hu

theorem C5_witness :
    pureJson rC5W.details = true ∧ rC5W.screenshot.isSome = true ∧
    rt (recordJS rC5W) = recordJS rC5W :=
  ⟨by decide, by decide, C5_roundTrip_amended rC5W (by decide) (by decide)⟩

theorem reportError_eq_of_serializable (env : Env) (st : List LogFile)
    (entry : ErrorCodeEntry) (d : JSValue) (scrName : Option String)
    (h : serializable d = true) :
    reportError env st entry d scrName =
      (Except.ok (buildErrorDetails env entry d scrName),
       logErrorToFile env st (buildErrorDetails env entry d scrName)) := by
  simp [reportError, h]

theorem substrOf_intro (sub pre post s : String)
    (h : pre.data ++ sub.data ++ post.data = s.data) : substrOf sub s :=
  ⟨pre.data, post.data, h⟩

theorem createError_message_shape (entry : ErrorCodeEntry) (am : JSValue) :
    ∃ tailStr : String,
      createError entry am =
        Thrown.classified
          ("[ERROR " ++ toString entry.code ++ "] " ++ entry.title ++ ": " ++
            entry.message ++ tailStr)
          entry.code entry.category entry.title ∧
      (truthy am = true → tailStr = ": " ++ jsCoerceToString am) := by
  cases h : truthy am
  · refine ⟨"", ?_, by simp⟩
    have : ("[ERROR " ++ toString entry.code ++ "] " ++ entry.title ++ ": " ++
        entry.message ++ "" : String) =
        "[ERROR " ++ toString entry.code ++ "] " ++ entry.title ++ ": " ++
          entry.message := by
      apply String.ext
      simp [String.data_append]
    rw [this]
    simp [createError, h]
  · refine ⟨": " ++ jsCoerceToString am, ?_, fun _ => rfl⟩
    have : ("[ERROR " ++ toString entry.code ++ "] " ++ entry.title ++ ": " ++
        entry.message ++ (": " ++ jsCoerceToString am) : String) =
        "[ERROR " ++ toString entry.code ++ "] " ++ entry.title ++ ": " ++
          entry.message ++ ": " ++ jsCoerceToString am := by
      apply String.ext
      simp [String.data_append]
    rw [this]
    simp [createError, h]

/-- Claim C3 counterexample, at two concrete inputs in a healthy
environment: (a) with a circular details payload,
`handleError(entry, d, true)` persists ZERO records and rethrows the
raw `TypeError` from `reportError` instead of the synthetic
classified error; (b) with a serializable payload, the thrown
synthetic error's message does NOT embed the category (here
`"ELEMENT"` does not occur in the message — the category travels only
as a property). -/
theorem C3_counterexample :
    handleError sampleEnv [] ERROR_UNKNOWN JSValue.circular true =
      (Except.error (Thrown.raw "TypeError: Converting circular structure to JSON"),
       []) ∧
    (handleError sampleEnv [] ERROR_LOCATOR_NOT_FOUND dC3cx true).1 =
      Except.error
        (Thrown.classified mC3cx 2001 ErrorCategory.ELEMENT "Element Not Found") ∧
    ¬ substrOf (categoryName ErrorCategory.ELEMENT) mC3cx := by
  refine ⟨rfl, rfl, ?_⟩
  have : ¬ ((categoryName ErrorCategory.ELEMENT).data <:+: mC3cx.data) := by decide
  exact this

/-- Claim C3 (amended): for every serializable details payload and a
writable log directory, `handleError(entry, d, true)` persists exactly
one record and throws the synthetic error, whose message embeds the
code, title, the entry message and a truthy caller-supplied `message`
string from the details, and which carries `code`, `category` and
`title` as inspectable properties (in particular `thrown.code =
entry.code`); `handleError(entry, d, false)` persists exactly one
record and returns it with no throw.  (The category is NOT embedded in
the message, and a non-serializable payload instead aborts before
persisting — see the counterexample.) -/
theorem C3_handleError_amended (env : Env) (st : List LogFile)
    (entry : ErrorCodeEntry) (d : JSValue)
    (hser : serializable d = true) (hw : env.logWritable = true) :
    ∃ m : String,
      handleError env st entry d true =
        (Except.error (Thrown.classified m entry.code entry.category entry.title),
         st ++ [mkLogRecord env (buildErrorDetails env entry d none)]) ∧
      handleError env st entry d false =
        (Except.ok (buildErrorDetails env entry d none),
         st ++ [mkLogRecord env (buildErrorDetails env entry d none)]) ∧
      (mkLogRecord env (buildErrorDetails env entry d none)).parsed =
        some (buildErrorDetails env entry d none) ∧
      (buildErrorDetails env entry d none).code = entry.code ∧
      substrOf (toString entry.code) m ∧
      substrOf entry.title m ∧
      substrOf entry.message m ∧
      (∀ m0 : String, getProp d "message" = JSValue.str m0 → m0 ≠ "" →
        substrOf m0 m) := by
  obtain ⟨tailStr, hc, htail⟩ := createError_message_shape entry (derivedMessage d)
  refine ⟨"[ERROR " ++ toString entry.code ++ "] " ++ entry.title ++ ": " ++
    entry.message ++ tailStr, ?_, ?_, rfl, rfl, ?_, ?_, ?_, ?_⟩
  · simp [handleError, reportError_eq_of_serializable env st entry d none hser, hc,
      logErrorToFile, hw]
  · simp [handleError, reportError_eq_of_serializable env st entry d none hser,
      logErrorToFile, hw]
  · refine substrOf_intro _ "[ERROR "
      ("] " ++ entry.title ++ ": " ++ entry.message ++ tailStr) _ ?_
    simp [String.data_append]
  · refine substrOf_intro _ ("[ERROR " ++ toString entry.code ++ "] ")
      (": " ++ entry.message ++ tailStr) _ ?_
    simp [String.data_append]
  · refine substrOf_intro _
      ("[ERROR " ++ toString entry.code ++ "] " ++ entry.title ++ ": ")
      tailStr _ ?_
    simp [String.data_append]
  · intro m0 hm hne
    have htr : truthy (derivedMessage d) = true := by
      simp [derivedMessage, jsOr, hm, truthy, hne]
    have hts : tailStr = ": " ++ m0 := by
      have := htail htr
      rw [this]
      simp [derivedMessage, jsOr, hm, truthy, hne, jsCoerceToString]
    subst hts
    refine substrOf_intro _
      ("[ERROR " ++ toString entry.code ++ "] " ++ entry.title ++ ": " ++
        entry.message ++ ": ") "" _ ?_
    simp [String.data_append]

theorem C3_witness :
    serializable dC3 = true ∧ sampleEnv.logWritable = true ∧
    (∃ m : String,
      handleError sampleEnv [] ERROR_AUTH_FAILED dC3 true =
        (Except.error (Thrown.classified m ERROR_AUTH_FAILED.code
          ERROR_AUTH_FAILED.category ERROR_AUTH_FAILED.title),
         [] ++ [mkLogRecord sampleEnv
           (buildErrorDetails sampleEnv ERROR_AUTH_FAILED dC3 none)]) ∧
      handleError sampleEnv [] ERROR_AUTH_FAILED dC3 false =
        (Except.ok (buildErrorDetails sampleEnv ERROR_AUTH_FAILED dC3 none),
         [] ++ [mkLogRecord sampleEnv
           (buildErrorDetails sampleEnv ERROR_AUTH_FAILED dC3 none)]) ∧
      (mkLogRecord sampleEnv
        (buildErrorDetails sampleEnv ERROR_AUTH_FAILED dC3 none)).parsed =
        some (buildErrorDetails sampleEnv ERROR_AUTH_FAILED dC3 none) ∧
      (buildErrorDetails sampleEnv ERROR_AUTH_FAILED dC3 none).code =
        ERROR_AUTH_FAILED.code ∧
      substrOf (toString ERROR_AUTH_FAILED.code) m ∧
      substrOf ERROR_AUTH_FAILED.title m ∧
      substrOf ERROR_AUTH_FAILED.message m ∧
      (∀ m0 : String, getProp dC3 "message" = JSValue.str m0 → m0 ≠ "" →
        substrOf m0 m)) :=
  ⟨by decide, rfl,
   C3_handleError_amended sampleEnv [] ERROR_AUTH_FAILED dC3 (by decide) rfl⟩

theorem statsLoop_eq (l : List LogFile) :
    ∀ (stats : ErrorCategory → Nat) (c : ErrorCategory),
      statsLoop stats l c =
        stats c + (validRun l).countP (fun r => decide (r.category = c)) := by
  induction l with
  | nil => intro stats c; simp [statsLoop, validRun]
  | cons f rest ih =>
    intro stats c
    cases hp : f.parsed with
    | none => simp [statsLoop, validRun, hp]
    | some r =>
      simp only [statsLoop, validRun, hp, ih, List.countP_cons]
      by_cases hc : c = r.category
      · subst hc
        simp [bumpCategory]
        omega
      · have hc2 : ¬ (r.category = c) := fun h => hc h.symm
        simp [bumpCategory, hc, hc2]

theorem sum_singleCount (cat : ErrorCategory) :
    (allCategories.map (fun c => if cat = c then 1 else 0)).sum = 1 := by
  cases cat <;> decide

theorem sum_countP_categories (l : List ErrorDetails) :
    (allCategories.map
      (fun c => l.countP (fun r => decide (r.category = c)))).sum = l.length := by
  induction l with
  | nil => simp [List.countP_nil]
  | cons r t ih =>
    have h1 : (allCategories.map
        (fun c => if decide (r.category = c) = true then 1 else 0)).sum = 1 := by
      simpa [decide_eq_true_eq] using sum_singleCount r.category
    simp only [List.countP_cons, List.sum_map_add, ih, h1, List.length_cons]

theorem statsEntries_sum (files : List LogFile) :
    ((statsEntries (getErrorStatistics files)).map Prod.snd).sum =
      (validRun (jsonLogFiles files)).length := by
  have h : ∀ c ∈ allCategories,
      getErrorStatistics files c =
        (validRun (jsonLogFiles files)).countP
          (fun r => decide (r.category = c)) := by
    intro c _
    simpa [getErrorStatistics] using
      statsLoop_eq (jsonLogFiles files) (fun _ => 0) c
  simp only [statsEntries, List.map_map, Function.comp_def]
  rw [List.map_congr_left h]
  exact sum_countP_categories (validRun (jsonLogFiles files))

/-- Claim C2 counterexample: the `try/catch` of `getErrorStatistics`
wraps the whole scan loop, so a malformed first file ABORTS the scan
of the remaining files: with one corrupt file followed by one valid
ELEMENT record, every count is zero and the sum of counts (0) differs
from the number of valid persisted records (1). -/
theorem C2_counterexample :
    getErrorStatistics badThenGoodFiles ErrorCategory.ELEMENT = 0 ∧
    ((statsEntries (getErrorStatistics badThenGoodFiles)).map Prod.snd).sum = 0 ∧
    badThenGoodFiles.countP (fun f => f.parsed.isSome) = 1 := by
  refine ⟨by decide, by decide, by decide⟩

/-- Claim C2 (amended): `getErrorStatistics` returns a mapping that
contains every one of the eleven categories (each count is a natural
number, hence `≥ 0`); the counts are the per-category counts over the
records of the longest prefix of valid `.json` files, and the sum of
all counts equals the length of that prefix.  A malformed or
unreadable file is excluded from the counts, but it also ends the
scan: the files after it contribute nothing (the call itself still
returns normally). -/
theorem C2_getErrorStatistics_amended (files : List LogFile) :
    (statsEntries (getErrorStatistics files)).map Prod.fst = allCategories ∧
    (∀ c, getErrorStatistics files c =
      (validRun (jsonLogFiles files)).countP (fun r => decide (r.category = c))) ∧
    ((statsEntries (getErrorStatistics files)).map Prod.snd).sum =
      (validRun (jsonLogFiles files)).length := by
  refine ⟨?_, ?_, ?_⟩
  · simp [statsEntries, List.map_map, Function.comp_def]
  · intro c
    simpa [getErrorStatistics] using
      statsLoop_eq (jsonLogFiles files) (fun _ => 0) c
  · exact statsEntries_sum files

theorem clearLoop_eq_filter (cutoffTime : Int) (files : List LogFile)
    (hclean : ∀ f ∈ files, f.statFails = false ∧ f.unlinkFails = false) :
    clearLoop cutoffTime files =
      files.filter (fun f =>
        !(strEndsWith f.name ".json" && decide (f.mtimeMs < cutoffTime))) := by
  induction files with
  | nil => simp [clearLoop]
  | cons f rest ih =>
    have hf := hclean f (by simp)
    have hrest : ∀ g ∈ rest, g.statFails = false ∧ g.unlinkFails = false :=
      fun g hg => hclean g (by simp [hg])
    by_cases hj : strEndsWith f.name ".json" = true
    · by_cases hm : f.mtimeMs < cutoffTime
      · simp [clearLoop, hj, hf.1, hf.2, hm, ih hrest, List.filter_cons]
      · simp [clearLoop, hj, hf.1, hm, ih hrest, List.filter_cons]
    · simp at hj
      simp [clearLoop, hj, ih hrest, List.filter_cons]

/-- Claim C6: with no filesystem failures, `clearOldErrorLogs(N)` at
time `nowMs` deletes exactly the `.json` record files whose
modification time is strictly older than `nowMs - N` days, preserves
every file at or newer than the cutoff (and every non-`.json` file),
and an immediate second run (same clock reading) deletes nothing
new. -/
theorem C6_clearOldErrorLogs_correct (nowMs N : Int) (files : List LogFile)
    (hclean : ∀ f ∈ files, f.statFails = false ∧ f.unlinkFails = false) :
    clearOldErrorLogs nowMs N files =
      files.filter (fun f =>
        !(strEndsWith f.name ".json" && decide (f.mtimeMs < cutoffOf nowMs N))) ∧
    clearOldErrorLogs nowMs N (clearOldErrorLogs nowMs N files) =
      clearOldErrorLogs nowMs N files := by
  have h1 := clearLoop_eq_filter (cutoffOf nowMs N) files hclean
  refine ⟨h1, ?_⟩
  have hclean2 : ∀ f ∈ clearOldErrorLogs nowMs N files,
      f.statFails = false ∧ f.unlinkFails = false := by
    intro f hf
    rw [clearOldErrorLogs, h1] at hf
    exact hclean f (List.mem_of_mem_filter hf)
  simp only [clearOldErrorLogs] at hclean2 ⊢
  have h2 := clearLoop_eq_filter (cutoffOf nowMs N) _ hclean2
  rw [h2, h1, List.filter_filter]
  simp

theorem C6_witness :
    (∀ f ∈ pruneWitnessFiles, f.statFails = false ∧ f.unlinkFails = false) ∧
    clearOldErrorLogs 1700000000000 30 pruneWitnessFiles =
      [mkAgedFile "boundary.json" 1697408000000,
       mkAgedFile "fresh.json" 1700000000000,
       mkAgedFile "notes.txt" 0] ∧
    (clearOldErrorLogs 1700000000000 30 pruneWitnessFiles =
      pruneWitnessFiles.filter (fun f =>
        !(strEndsWith f.name ".json" &&
          decide (f.mtimeMs < cutoffOf 1700000000000 30))) ∧
     clearOldErrorLogs 1700000000000 30
        (clearOldErrorLogs 1700000000000 30 pruneWitnessFiles) =
      clearOldErrorLogs 1700000000000 30 pruneWitnessFiles) :=
  ⟨by decide, rfl,
   C6_clearOldErrorLogs_correct 1700000000000 30 pruneWitnessFiles (by decide)⟩

/-- Claim C7 counterexample: a failed delete is NOT merely skipped —
it ends the batch.  Both files here are `.json` records strictly older
than the cutoff; deleting the first throws, and the second — although
old enough — survives because the `catch` sits outside the loop. -/
theorem C7_counterexample :
    clearOldErrorLogs 1700000000000 1 failingBatchFiles = failingBatchFiles ∧
    (∀ f ∈ failingBatchFiles,
      strEndsWith f.name ".json" = true ∧
      f.mtimeMs < cutoffOf 1700000000000 1) := by
  exact ⟨rfl, by decide⟩

/-- Claim C7 (amended): a failure to stat or delete one record file is
caught (the call still returns normally) and the files examined before
it are processed as usual, but the failure IS fatal to the rest of the
batch: the failing file and every file after it are left untouched and
unexamined. -/
theorem C7_failure_aborts_batch (nowMs N : Int) (pre post : List LogFile)
    (f : LogFile)
    (hpre : ∀ g ∈ pre, g.statFails = false ∧ g.unlinkFails = false)
    (hjson : strEndsWith f.name ".json" = true)
    (hfail : f.statFails = true ∨
      (f.mtimeMs < cutoffOf nowMs N ∧ f.unlinkFails = true)) :
    clearOldErrorLogs nowMs N (pre ++ f :: post) =
      clearLoop (cutoffOf nowMs N) pre ++ f :: post := by
  rw [clearOldErrorLogs]
  induction pre with
  | nil =>
    rcases hfail with hs | ⟨hm, hu⟩
    · simp [clearLoop, hjson, hs]
    · by_cases hs : f.statFails = true
      · simp [clearLoop, hjson, hs]
      · simp at hs
        simp [clearLoop, hjson, hs, hm, hu]
  | cons g rest ih =>
    obtain ⟨hg1, hg2⟩ := hpre g (by simp)
    have hrest : ∀ x ∈ rest, x.statFails = false ∧ x.unlinkFails = false :=
      fun x hx => hpre x (by simp [hx])
    by_cases hj : strEndsWith g.name ".json" = true
    · by_cases hm : g.mtimeMs < cutoffOf nowMs N
      · simp [clearLoop, hj, hg1, hg2, hm, ih hrest]
      · simp [clearLoop, hj, hg1, hm, ih hrest]
    · simp at hj
      simp [clearLoop, hj, ih hrest]

theorem C7_witness :
    (∀ g ∈ c7pre, g.statFails = false ∧ g.unlinkFails = false) ∧
    strEndsWith c7fail.name ".json" = true ∧
    (c7fail.statFails = true ∨
      (c7fail.mtimeMs < cutoffOf 1700000000000 1 ∧ c7fail.unlinkFails = true)) ∧
    clearOldErrorLogs 1700000000000 1 (c7pre ++ c7fail :: c7post) =
      clearLoop (cutoffOf 1700000000000 1) c7pre ++ c7fail :: c7post :=
  ⟨by decide, by decide, by decide,
   C7_failure_aborts_batch 1700000000000 1 c7pre c7post c7fail
     (by decide) (by decide) (by decide)⟩

/-- Claim C8: for every selector, when the underlying browser
operation fails, `BasePage.isVisible` returns `false` and
`BasePage.getText` returns the empty string; no error propagates to
the caller, and (with a writable log directory) exactly one
`ERROR_LOCATOR_NOT_FOUND` (code 2001, category ELEMENT) record is
persisted per call. -/
theorem C8_degraded_defaults (env : Env) (st : List LogFile)
    (selector m1 m2 : String)
    (h1 : env.isVisibleRes = Except.error m1)
    (h2 : env.innerTextRes = Except.error m2)
    (hw : env.logWritable = true) :
    isVisible env st selector =
      (Except.ok false,
       st ++ [mkLogRecord env (buildErrorDetails env ERROR_LOCATOR_NOT_FOUND
         (isVisibleDetails selector m1)
         (some ("element-not-found-" ++ toString env.nowMs ++ ".png")))]) ∧
    getText env st selector =
      (Except.ok "",
       st ++ [mkLogRecord env (buildErrorDetails env ERROR_LOCATOR_NOT_FOUND
         (getTextDetails selector m2) none)]) ∧
    (buildErrorDetails env ERROR_LOCATOR_NOT_FOUND
      (isVisibleDetails selector m1)
      (some ("element-not-found-" ++ toString env.nowMs ++ ".png"))).code = 2001 ∧
    (buildErrorDetails env ERROR_LOCATOR_NOT_FOUND
      (getTextDetails selector m2) none).category = ErrorCategory.ELEMENT := by
  refine ⟨?_, ?_, rfl, rfl⟩
  · simp [isVisible, h1,
      reportError_eq_of_serializable env st ERROR_LOCATOR_NOT_FOUND
        (isVisibleDetails selector m1)
        (some ("element-not-found-" ++ toString env.nowMs ++ ".png")) rfl,
      logErrorToFile, hw]
  · simp [getText, h2,
      reportError_eq_of_serializable env st ERROR_LOCATOR_NOT_FOUND
        (getTextDetails selector m2) none rfl,
      logErrorToFile, hw]

theorem C8_witness :
    envC8.isVisibleRes = Except.error "Timeout 30000ms exceeded" ∧
    envC8.innerTextRes = Except.error "Timeout 30000ms exceeded" ∧
    envC8.logWritable = true ∧
    isVisible envC8 [] "#cart" =
      (Except.ok false,
       [] ++ [mkLogRecord envC8 (buildErrorDetails envC8 ERROR_LOCATOR_NOT_FOUND
         (isVisibleDetails "#cart" "Timeout 30000ms exceeded")
         (some ("element-not-found-" ++ toString envC8.nowMs ++ ".png")))]) ∧
    getText envC8 [] "#cart" =
      (Except.ok "",
       [] ++ [mkLogRecord envC8 (buildErrorDetails envC8 ERROR_LOCATOR_NOT_FOUND
         (getTextDetails "#cart" "Timeout 30000ms exceeded") none)]) :=
  ⟨rfl, rfl, rfl,
   (C8_degraded_defaults envC8 [] "#cart" "Timeout 30000ms exceeded"
     "Timeout 30000ms exceeded" rfl rfl rfl).1,
   (C8_degraded_defaults envC8 [] "#cart" "Timeout 30000ms exceeded"
     "Timeout 30000ms exceeded" rfl rfl rfl).2.1⟩

/-- Claim C10: `BasePage.navigate` never lets the original low-level
error reach its caller: whatever failure occurs — `new URL` throwing
on an unparsable path before any browser call, or `page.goto`
rejecting — every error surfacing from `navigate` is the synthetic
classified error of `handleError`, carrying code 3002 and category
NAVIGATION as properties; and whenever either step fails, `navigate`
does throw such an error. -/
theorem C10_navigate_classified (env : Env) (st : List LogFile) (navPath : String) :
    (∀ t st2, navigate env st navPath = (Except.error t, st2) →
      ∃ m, t = Thrown.classified m 3002 ErrorCategory.NAVIGATION "Navigation Failed") ∧
    (∀ errMsg, (env.urlCtorErr = some errMsg ∨
        (env.urlCtorErr = none ∧ env.gotoErr = some errMsg)) →
      ∃ t st2, navigate env st navPath = (Except.error t, st2)) := by
  have hh : ∀ m : String, navigateCatch env st navPath m =
      (Except.error (createError ERROR_NAVIGATION_FAILED
        (derivedMessage (navigateDetails navPath env.baseUrl m))),
       logErrorToFile env st (buildErrorDetails env ERROR_NAVIGATION_FAILED
         (navigateDetails navPath env.baseUrl m) none)) := by
    intro m
    simp [navigateCatch, handleError,
      reportError_eq_of_serializable env st ERROR_NAVIGATION_FAILED
        (navigateDetails navPath env.baseUrl m) none rfl]
  constructor
  · intro t st2 ht
    cases hu : env.urlCtorErr with
    | some m =>
      rw [navigate, hu] at ht
      have ht2 : navigateCatch env st navPath m = (Except.error t, st2) := ht
      rw [hh m] at ht2
      have h2 : t = createError ERROR_NAVIGATION_FAILED
          (derivedMessage (navigateDetails navPath env.baseUrl m)) := by
        have := congrArg Prod.fst ht2
        simpa using this.symm
      exact ⟨_, by rw [h2]; rfl⟩
    | none =>
      cases hg : env.gotoErr with
      | some m =>
        rw [navigate, hu] at ht
        have ht2 : navigateCatch env st navPath m = (Except.error t, st2) := by
          rw [← ht, hg]
        rw [hh m] at ht2
        have h2 : t = createError ERROR_NAVIGATION_FAILED
            (derivedMessage (navigateDetails navPath env.baseUrl m)) := by
          have := congrArg Prod.fst ht2
          simpa using this.symm
        exact ⟨_, by rw [h2]; rfl⟩
      | none =>
        rw [navigate, hu] at ht
        have ht2 : (Except.ok (), st) =
            ((Except.error t, st2) : Except Thrown Unit × List LogFile) := by
          rw [← ht, hg]
        simp at ht2
  · intro errMsg hfail
    rcases hfail with hu | ⟨hu, hg⟩
    · refine ⟨createError ERROR_NAVIGATION_FAILED
        (derivedMessage (navigateDetails navPath env.baseUrl errMsg)),
        logErrorToFile env st (buildErrorDetails env ERROR_NAVIGATION_FAILED
          (navigateDetails navPath env.baseUrl errMsg) none), ?_⟩
      rw [navigate, hu]
      exact hh errMsg
    · refine ⟨createError ERROR_NAVIGATION_FAILED
        (derivedMessage (navigateDetails navPath env.baseUrl errMsg)),
        logErrorToFile env st (buildErrorDetails env ERROR_NAVIGATION_FAILED
          (navigateDetails navPath env.baseUrl errMsg) none), ?_⟩
      rw [navigate, hu, hg]
      exact hh errMsg

theorem C10_witness :
    envNav.urlCtorErr = some "Invalid URL" ∧
    (∃ t st2, navigate envNav [] "::bad::" = (Except.error t, st2) ∧
      ∃ m, t = Thrown.classified m 3002 ErrorCategory.NAVIGATION
        "Navigation Failed") := by
  refine ⟨rfl, ?_⟩
  obtain ⟨t, st2, ht⟩ :=
    (C10_navigate_classified envNav [] "::bad::").2 "Invalid URL" (Or.inl rfl)
  exact ⟨t, st2, ht, (C10_navigate_classified envNav [] "::bad::").1 t st2 ht⟩

theorem errorsLoop_eq (category : ErrorCategory) (l : List LogFile) :
    ∀ acc, errorsLoop acc category l =
      acc ++ (validRun l).filter (fun r => decide (r.category = category)) := by
  induction l with
  | nil => intro acc; simp [errorsLoop, validRun]
  | cons f rest ih =>
    intro acc
    cases hp : f.parsed with
    | none => simp [errorsLoop, validRun, hp]
    | some r =>
      by_cases hc : r.category = category
      · simp [errorsLoop, validRun, hp, hc, ih, List.filter_cons]
      · simp [errorsLoop, validRun, hp, hc, ih, List.filter_cons]

theorem getErrorsByCategory_eq (files : List LogFile) (category : ErrorCategory) :
    getErrorsByCategory files category =
      (validRun (jsonLogFiles files)).filter
        (fun r => decide (r.category = category)) := by
  simpa [getErrorsByCategory] using
    errorsLoop_eq category (jsonLogFiles files) []

theorem validRun_length_of_all_some (l : List LogFile)
    (h : ∀ f ∈ l, f.parsed.isSome = true) :
    (validRun l).length = l.length := by
  induction l with
  | nil => rfl
  | cons f rest ih =>
    have hf := h f (by simp)
    obtain ⟨r, hr⟩ := Option.isSome_iff_exists.mp hf
    simp [validRun, hr, ih (fun g hg => h g (by simp [hg]))]

theorem mostFrequent_max (stats : ErrorCategory → Nat) (c : ErrorCategory) :
    stats c ≤ stats
      (((statsEntries stats).mergeSort
        (fun a b => decide (b.2 ≤ a.2))).headD (ErrorCategory.UNKNOWN, 0)).1 := by
  set le := fun a b : ErrorCategory × Nat => decide (b.2 ≤ a.2) with hle
  have htrans : ∀ a b c2, le a b = true → le b c2 = true → le a c2 = true := by
    intro a b c2 hab hbc
    simp only [hle, decide_eq_true_eq] at hab hbc ⊢
    omega
  have htotal : ∀ a b, (le a b || le b a) = true := by
    intro a b
    simp only [hle, Bool.or_eq_true, decide_eq_true_eq]
    omega
  have hperm := List.mergeSort_perm (statsEntries stats) le
  have hsorted := List.sorted_mergeSort htrans htotal (statsEntries stats)
  have hne : (statsEntries stats).mergeSort le ≠ [] := by
    intro h0
    have hl := hperm.length_eq
    rw [h0] at hl
    simp [statsEntries, allCategories] at hl
  obtain ⟨hd, tl, hcons⟩ := List.exists_cons_of_ne_nil hne
  have hmem : (c, stats c) ∈ (statsEntries stats).mergeSort le :=
    hperm.symm.subset
      (List.mem_map_of_mem (fun c => (c, stats c)) (mem_allCategories c))
  have hle1 : stats c ≤ hd.2 := by
    rw [hcons] at hmem hsorted
    rcases List.mem_cons.mp hmem with he | htlmem
    · rw [← he]
    · have h2 := List.rel_of_pairwise_cons hsorted htlmem
      simpa [hle] using h2
  have hdmem : hd ∈ statsEntries stats := hperm.subset (by rw [hcons]; simp)
  obtain ⟨c0, _, hc0⟩ := List.mem_map.mp hdmem
  rw [hcons]
  simp only [List.headD_cons]
  rw [← hc0] at hle1 ⊢
  exact hle1

/-- Claim C4: (with every `.json` log file parseable) the report of
`generateAIMaintenanceReport` has a `mostFrequentCategory` whose count
is maximal — no category counts strictly more —, `topErrors` of length
`min 10 (number of persisted records of that category)` all belonging
to that category, and `totalErrors` equal to the sum of all
per-category counts, which is the number of persisted records. -/
theorem C4_generateAIMaintenanceReport_correct (env : Env) (files : List LogFile)
    (hvalid : ∀ f ∈ jsonLogFiles files, f.parsed.isSome = true) :
    (∀ c, getErrorStatistics files c ≤
      getErrorStatistics files
        (generateAIMaintenanceReport env files).mostFrequentCategory) ∧
    (generateAIMaintenanceReport env files).topErrors.length =
      min 10 ((validRun (jsonLogFiles files)).countP
        (fun r => decide (r.category =
          (generateAIMaintenanceReport env files).mostFrequentCategory))) ∧
    (∀ r ∈ (generateAIMaintenanceReport env files).topErrors,
      r.category = (generateAIMaintenanceReport env files).mostFrequentCategory) ∧
    (generateAIMaintenanceReport env files).totalErrors =
      ((statsEntries (getErrorStatistics files)).map Prod.snd).sum ∧
    (generateAIMaintenanceReport env files).totalErrors =
      (jsonLogFiles files).length := by
  refine ⟨?_, ?_, ?_, rfl, ?_⟩
  · intro c
    exact mostFrequent_max (getErrorStatistics files) c
  · show ((getErrorsByCategory files
      (generateAIMaintenanceReport env files).mostFrequentCategory).take 10).length = _
    rw [List.length_take, getErrorsByCategory_eq, List.countP_eq_length_filter]
  · intro r hr
    have hr2 : r ∈ getErrorsByCategory files
        (generateAIMaintenanceReport env files).mostFrequentCategory :=
      List.take_subset 10 _ hr
    rw [getErrorsByCategory_eq] at hr2
    exact of_decide_eq_true (List.mem_filter.mp hr2).2
  · show ((statsEntries (getErrorStatistics files)).map Prod.snd).sum = _
    rw [statsEntries_sum files, validRun_length_of_all_some _ hvalid]

theorem C4_witness :
    (∀ f ∈ jsonLogFiles scenFiles, f.parsed.isSome = true) ∧
    (generateAIMaintenanceReport sampleEnv scenFiles).mostFrequentCategory =
      ErrorCategory.ELEMENT ∧
    (generateAIMaintenanceReport sampleEnv scenFiles).topErrors.length = 4 ∧
    (generateAIMaintenanceReport sampleEnv scenFiles).totalErrors = 7 := by
  have hvalid : ∀ f ∈ jsonLogFiles scenFiles, f.parsed.isSome = true := by decide
  obtain ⟨hmax, hlen, _, _, htot⟩ :=
    C4_generateAIMaintenanceReport_correct sampleEnv scenFiles hvalid
  have h4 := hmax ErrorCategory.ELEMENT
  have hmf : (generateAIMaintenanceReport sampleEnv scenFiles).mostFrequentCategory =
      ErrorCategory.ELEMENT := by
    cases hc : (generateAIMaintenanceReport sampleEnv scenFiles).mostFrequentCategory <;>
      rw [hc] at h4 <;> first | rfl | exact absurd h4 (by decide)
  refine ⟨hvalid, hmf, ?_, ?_⟩
  · rw [hlen, hmf]
    decide
  · rw [htot]
    decide
